import Mathlib

/-!
Verification of the configuration-repair heuristic and migration-script
emitter of the ChromaDB diagnostic utilities
(`chroma_version_analysis.py`, `chroma_diagnostic.py`).

The Python code is embedded shallowly:
* JSON values (`json.loads` results) as the inductive `Json`; Python dict
  insertion order is the order of the association list in `Json.obj`.
* `json.dumps` with its default arguments (separators `", "` / `": "`,
  `ensure_ascii=True`) as `dumps`.
* the parser `json.loads` is an external stdlib call and is passed in as an
  oracle `parse : String → Except String Json` (`.error` = JSONDecodeError).
* the per-row logic of `analyze_configuration_error` (lines 65-91) as
  `analyzeRecord`; the `if '_type' not in config` / `config['_type'] = ...`
  step of `generate_migration_script` (lines 119-120) as `fixConfig`;
  Python `TypeError`s raised by `in` / item assignment on non-container
  values are modelled as `.error "TypeError"`.
* the migration script text as a list of lines (`scriptLinesE`) whose
  newline-join (`joinLines`) is character-for-character the Python string.
-/

set_option autoImplicit false
set_option maxRecDepth 100000

deriving instance DecidableEq for Except

namespace ChromaAnalysis

/-- A JSON value as produced by Python's `json.loads` (numbers restricted to
integers; no claim involves floats). `obj` keeps the key insertion order, the
order a Python dict preserves. -/
inductive Json where
  | null : Json
  | bool (b : Bool) : Json
  | num (n : Int) : Json
  | str (s : String) : Json
  | arr (elts : List Json) : Json
  | obj (members : List (String × Json)) : Json

/-- Lower-case hexadecimal digit, as Python's `\uXXXX` escapes use. -/
def hexDigit (n : Nat) : Char :=
  if n < 10 then Char.ofNat (48 + n) else Char.ofNat (87 + n)

/-- Four lower-case hex digits: the `XXXX` of a Python `\uXXXX` escape. -/
def hex4 (n : Nat) : String :=
  String.mk [hexDigit (n / 4096 % 16), hexDigit (n / 256 % 16),
             hexDigit (n / 16 % 16), hexDigit (n % 16)]

/-- Escaping of one character inside a JSON string, following Python
`json.dumps` with `ensure_ascii=True`: `"` and `\` get a backslash, the
short control escapes `\n \r \t \b \f` are used, every other character
outside `0x20..0x7e` becomes `\uXXXX` (a surrogate pair above `0xffff`). -/
def escChar (c : Char) : String :=
  if c = Char.ofNat 34 then "\\\""
  else if c = Char.ofNat 92 then "\\\\"
  else if c = Char.ofNat 10 then "\\n"
  else if c = Char.ofNat 13 then "\\r"
  else if c = Char.ofNat 9 then "\\t"
  else if c = Char.ofNat 8 then "\\b"
  else if c = Char.ofNat 12 then "\\f"
  else if c.toNat < 32 then "\\u" ++ hex4 c.toNat
  else if c.toNat < 127 then String.singleton c
  else if c.toNat < 65536 then "\\u" ++ hex4 c.toNat
  else
    let v := c.toNat - 65536
    "\\u" ++ hex4 (55296 + v / 1024) ++ "\\u" ++ hex4 (56320 + v % 1024)

/-- A JSON string literal as `json.dumps` writes it. -/
def escString (s : String) : String :=
  "\"" ++ String.join (s.data.map escChar) ++ "\""

mutual

/-- Python `json.dumps` with default arguments: item separator `", "`,
key separator `": "`. -/
def dumps : Json → String
  | Json.null => "null"
  | Json.bool true => "true"
  | Json.bool false => "false"
  | Json.num n => toString n
  | Json.str s => escString s
  | Json.arr xs => "[" ++ dumpsList xs ++ "]"
  | Json.obj kvs => "\x7b" ++ dumpsMembers kvs ++ "\x7d"

/-- Array elements joined by `", "`. -/
def dumpsList : List Json → String
  | [] => ""
  | [x] => dumps x
  | x :: y :: xs => dumps x ++ ", " ++ dumpsList (y :: xs)

/-- Object members joined by `", "`, each `key: value`. -/
def dumpsMembers : List (String × Json) → String
  | [] => ""
  | [kv] => escString kv.1 ++ ": " ++ dumps kv.2
  | kv :: kv2 :: xs => escString kv.1 ++ ": " ++ dumps kv.2 ++ ", " ++ dumpsMembers (kv2 :: xs)

end

/-- `pat` occurs at the start of the character list. -/
def strLeads : List Char → List Char → Bool
  | [], _ => true
  | _ :: _, [] => false
  | p :: ps, c :: cs => p = c && strLeads ps cs

/-- `pat` occurs somewhere in the character list. -/
def strHas (pat : List Char) : List Char → Bool
  | [] => strLeads pat []
  | c :: cs => strLeads pat (c :: cs) || strHas pat cs

/-- `containsSubstr s pat`: Python `pat in s` on strings. -/
def containsSubstr (s pat : String) : Bool :=
  strHas pat.data s.data

/-- Python `key in config` (and negation `key not in config`): key lookup on
a dict, element membership on a list, substring test on a string; on any
other value Python raises `TypeError`, modelled as `none`. -/
def jsonContainsKey (key : String) : Json → Option Bool
  | Json.obj kvs => some (kvs.any (fun kv => kv.1 = key))
  | Json.arr xs => some (xs.any (fun j => match j with
      | Json.str t => t = key
      | _ => false))
  | Json.str s => some (containsSubstr s key)
  | _ => none

/-- Python dict item assignment `d[k] = v`: overwrite in place when the key
exists, else append (insertion order). -/
def dictSet (kvs : List (String × Json)) (k : String) (v : Json) : List (String × Json) :=
  if kvs.any (fun kv => kv.1 = k) then
    kvs.map (fun kv => if kv.1 = k then (k, v) else kv)
  else kvs ++ [(k, v)]

/-- `config['_type'] = 'CollectionConfigurationInternal'`
(chroma_version_analysis.py line 82 and line 120). On a non-dict value the
assignment raises `TypeError`. -/
def setTypeKey : Json → Except String Json
  | Json.obj kvs => Except.ok (Json.obj (dictSet kvs "_type" (Json.str "CollectionConfigurationInternal")))
  | _ => Except.error "TypeError"

/-- Python truthiness of the nullable text column `configuration_json_str`:
`None` and the empty string are falsy (`if config_json_str:` line 69). -/
def truthyStr : Option String → Bool
  | none => false
  | some s => !s.isEmpty

/-- A problematic-collection entry as `analyze_configuration_error` appends
it to `problematic_configs`: identifier, name, and the (possibly already
patched) decoded configuration, or `none` for malformed/absent blobs. -/
abbrev Problem := String × String × Option Json

/-- The body of the per-row loop of `analyze_configuration_error`
(chroma_version_analysis.py lines 65-91), for one row
`(collection_id, name, config_json_str)`:

* falsy blob (NULL column or empty string) → appended as `(id, name, None)`;
* blob that fails `json.loads` (`.error` from the oracle) → appended as
  `(id, name, None)`;
* parsed value with a `'_type'` key → not appended (`.ok none`);
* parsed value without `'_type'` → appended; when it also has an `'hnsw'`
  key the code first executes `config['_type'] = 'CollectionConfigurationInternal'`
  on the very object it appended, so the stored entry carries the patch.

A Python `TypeError` from `in` or from the assignment on a non-container
value is surfaced as `.error` (in the source it is caught by the enclosing
`except Exception`, making the whole analysis return `None`). -/
def analyzeRecord (parse : String → Except String Json)
    (collection_id name : String) (blob : Option String) :
    Except String (Option Problem) :=
  if truthyStr blob then
    match blob with
    | none => Except.ok (some (collection_id, name, none))
    | some s =>
      match parse s with
      | Except.error _ => Except.ok (some (collection_id, name, none))
      | Except.ok config =>
        match jsonContainsKey "_type" config with
        | none => Except.error "TypeError"
        | some true => Except.ok none
        | some false =>
          match jsonContainsKey "hnsw" config with
          | none => Except.error "TypeError"
          | some true =>
            match setTypeKey config with
            | Except.error e => Except.error e
            | Except.ok config2 => Except.ok (some (collection_id, name, some config2))
          | some false => Except.ok (some (collection_id, name, some config))
  else Except.ok (some (collection_id, name, none))

/-- The diagnostic message class the per-row loop prints for a row's
configuration blob (the `print` branches of lines 69-91). -/
def recordDiagnostic (parse : String → Except String Json)
    (blob : Option String) : String :=
  if truthyStr blob then
    match blob with
    | none => "No configuration JSON found"
    | some s =>
      match parse s with
      | Except.error _ => "Invalid JSON in configuration"
      | Except.ok config =>
        match jsonContainsKey "_type" config with
        | none => "TypeError"
        | some true => "Configuration has _type"
        | some false => "Missing _type field in configuration"
  else "No configuration JSON found"

/-- The whole collection scan of `analyze_configuration_error`: the ordered
list of problematic entries collected from the rows (an `.error` models the
exception path that makes the function return `None`). -/
def analyzeRows (parse : String → Except String Json)
    (rows : List (String × String × Option String)) :
    Except String (List Problem) :=
  match rows with
  | [] => Except.ok []
  | r :: rest =>
    match analyzeRecord parse r.1 r.2.1 r.2.2 with
    | Except.error e => Except.error e
    | Except.ok o =>
      match analyzeRows parse rest with
      | Except.error e => Except.error e
      | Except.ok ps =>
        Except.ok (match o with
          | some p => p :: ps
          | none => ps)

/-- The fixed fallback configuration used for malformed/absent blobs
(`default_config`, chroma_version_analysis.py lines 131-135), keys in the
source's insertion order. -/
def default_config : Json :=
  Json.obj [("_type", Json.str "CollectionConfigurationInternal"),
            ("hnsw", Json.obj []),
            ("embedding_function", Json.obj [])]

/-- Lines 119-120 of `generate_migration_script`:
`if '_type' not in config: config['_type'] = 'CollectionConfigurationInternal'`.
`TypeError` (non-container `in`, or assignment on a non-dict) is `.error`. -/
def fixConfig (config : Json) : Except String Json :=
  match jsonContainsKey "_type" config with
  | some true => Except.ok config
  | some false => setTypeKey config
  | none => Except.error "TypeError"

/-- Join a list of lines into the text they denote, a newline after each
line. The multi-line f-strings of `generate_migration_script` are embedded
as line lists; `joinLines` recovers the exact Python string. -/
def joinLines (ls : List String) : String :=
  String.join (ls.map (fun l => l ++ "\n"))

/-- The header f-string of the migration script
(chroma_version_analysis.py lines 108-114), as lines. -/
def headerLines (db_path : String) : List String :=
  ["-- ChromaDB Configuration Migration Script",
   "-- Generated for database: " ++ db_path,
   "-- Fixes missing '_type' fields in collection configurations",
   "",
   "BEGIN TRANSACTION;",
   ""]

/-- The footer appended after the per-record statements
(chroma_version_analysis.py lines 144-149), as lines. -/
def footerLines : List String :=
  ["",
   "COMMIT;",
   "",
   "-- Verify the changes",
   "SELECT id, name, configuration_json_str FROM collections;"]

/-- The block of script text one problematic record contributes
(chroma_version_analysis.py lines 116-142), as lines. A record with a
decoded configuration first passes through `fixConfig`; a record with
`None` gets `default_config`. Note the trailing space after
`UPDATE collections` and the final blank line, both present in the
source's f-strings. -/
def recLines (rec : Problem) : Except String (List String) :=
  match rec.2.2 with
  | some config =>
    match fixConfig config with
    | Except.error e => Except.error e
    | Except.ok config2 =>
      Except.ok ["-- Fix collection: " ++ rec.2.1,
                 "UPDATE collections ",
                 "SET configuration_json_str = '" ++ dumps config2 ++ "'",
                 "WHERE id = '" ++ rec.1 ++ "';",
                 ""]
  | none =>
    Except.ok ["-- Fix collection with default config: " ++ rec.2.1,
               "UPDATE collections ",
               "SET configuration_json_str = '" ++ dumps default_config ++ "'",
               "WHERE id = '" ++ rec.1 ++ "';",
               ""]

/-- The per-record blocks in loop order (the `for collection_id, name,
config in problematic_configs` loop, lines 116-142). -/
def recBlocks : List Problem → Except String (List (List String))
  | [] => Except.ok []
  | r :: rest =>
    match recLines r with
    | Except.error e => Except.error e
    | Except.ok b =>
      match recBlocks rest with
      | Except.error e => Except.error e
      | Except.ok bs => Except.ok (b :: bs)

/-- All lines of the migration script for a non-empty problem list. -/
def scriptLinesE (db_path : String) (problematic_configs : List Problem) :
    Except String (List String) :=
  match recBlocks problematic_configs with
  | Except.error e => Except.error e
  | Except.ok blocks =>
    Except.ok (headerLines db_path ++ blocks.flatten ++ footerLines)

/-- `os.path.dirname` for POSIX paths: everything before the final slash;
trailing slashes are stripped from the head unless the head is all
slashes. -/
def dirname (p : String) : String :=
  match (p.data.reverse.findIdx? (fun c => c = Char.ofNat 47)) with
  | none => ""
  | some k =>
    let head := p.data.take (p.data.length - k)
    if head.all (fun c => c = Char.ofNat 47) then String.mk head
    else String.mk (head.reverse.dropWhile (fun c => c = Char.ofNat 47)).reverse

/-- `s` starts with `pat` (kernel-reducible form of `String.startsWith`). -/
def startsWithStr (s pat : String) : Bool :=
  strLeads pat.data s.data

/-- `s` ends with `pat` (kernel-reducible form of `String.endsWith`). -/
def endsWithStr (s pat : String) : Bool :=
  strLeads pat.data.reverse s.data.reverse

/-- `os.path.join` for POSIX paths, two arguments. -/
def joinPath (a b : String) : String :=
  if startsWithStr b "/" then b
  else if a = "" then b
  else if endsWithStr a "/" then a ++ b
  else a ++ "/" ++ b

/-- The output path of the migration script
(chroma_version_analysis.py line 151):
`os.path.join(os.path.dirname(db_path), "chroma_migration.sql")`. -/
def scriptPath (db_path : String) : String :=
  joinPath (dirname db_path) "chroma_migration.sql"

/-- `generate_migration_script` (chroma_version_analysis.py lines 100-159):
for an empty (falsy) problem list it prints and returns without touching the
filesystem (`.ok none`); otherwise it builds the script text and writes it
to `scriptPath db_path` (`.ok (some (path, text))`). A `TypeError` raised
while patching a non-dict config propagates uncaught (`.error`). -/
def generate_migration_script (db_path : String)
    (problematic_configs : List Problem) :
    Except String (Option (String × String)) :=
  if problematic_configs.isEmpty then Except.ok none
  else
    match scriptLinesE db_path problematic_configs with
    | Except.error e => Except.error e
    | Except.ok ls => Except.ok (some (scriptPath db_path, joinLines ls))

/-- Effect of one `generate_migration_script` call on a file system modelled
as a partial map from paths to contents: a successful run with a non-empty
problem list overwrites exactly the script path; every other outcome leaves
the file system unchanged. -/
def applyGenerate (fs : String → Option String) (db_path : String)
    (problematic_configs : List Problem) : String → Option String :=
  match generate_migration_script db_path problematic_configs with
  | Except.ok (some (p, text)) => fun q => if q = p then some text else fs q
  | _ => fs

/-- `test_chromadb_connection_with_fixes` (chroma_version_analysis.py lines
161-185), abstracted over the outcomes of the external client calls: each
approach is a label together with the result of running its `try` block
(`.ok n` = client opened and `list_collections` returned `n` collections;
`.error (kind, msg)` = some step raised, caught by the `except`). Returns
the boolean result and, for every approach actually attempted and failed,
the printed report `(label, exception kind, exception message)`. The loop
`return True`s on the first success, so later approaches are never
examined. -/
def test_chromadb_connection_with_fixes
    (approaches : List (String × Except (String × String) Nat)) :
    Bool × List (String × String × String) :=
  match approaches with
  | [] => (false, [])
  | (_, Except.ok _) :: _ => (true, [])
  | (nm, Except.error e) :: rest =>
    let r := test_chromadb_connection_with_fixes rest
    (r.1, (nm, e.1, e.2) :: r.2)

/-- The SQL reading of a single-quoted string literal: the characters up to
the closing quote, a doubled quote standing for one literal quote. Input is
the text immediately after the opening quote; the result is the literal's
value and the remaining text, `none` for an unterminated literal. -/
def sqlLitParse : List Char → Option (List Char × List Char)
  | [] => none
  | [c] => if c = Char.ofNat 39 then some ([], []) else none
  | c :: d :: cs =>
    if c = Char.ofNat 39 then
      if d = Char.ofNat 39 then
        (sqlLitParse cs).map (fun p => (Char.ofNat 39 :: p.1, p.2))
      else some ([], d :: cs)
    else (sqlLitParse (d :: cs)).map (fun p => (c :: p.1, p.2))

/-- The value an SQL shell reads for a quoted literal beginning at the head
of `s` (`s` starts right after the opening quote). -/
def sqlFirstLit (s : String) : Option String :=
  (sqlLitParse s.data).map (fun p => String.mk p.1)

/-! ### Event-trace embedding of the two entry points

Both `main`s are embedded as pure functions from an abstract environment
(filesystem predicates plus oracles for every external library call) to the
list of observable actions the run performs, in order. Print statements
other than the path-not-found error carry no information the claims need
and produce no event. -/

/-- One observable action of a run. -/
inductive Event where
  | printPathError : Event
  | listDir (path : String) : Event
  | storageInspect (path : String) : Event
  | connAttempt (label : String) : Event
  | classify (rows : Nat) : Event
  | scriptWrite (path : String) : Event
  | backupCopyAttempt (src dst : String) : Event
  | backupWritten (dst : String) : Event
  | uncaughtExc (kind : String) : Event
deriving DecidableEq

/-- The abstract world both scripts run against: filesystem facts and the
outcomes of external library calls. -/
structure Env where
  pathExists : String → Bool
  /-- `os.listdir`: name, is-file flag, size of each child. -/
  listingOf : String → List (String × Bool × Nat)
  /-- outcome of the `try` body of approach `i` in
  `test_chromadb_connection_with_fixes`. -/
  vaConnect : Nat → Except (String × String) Nat
  /-- `sqlite3.connect` + `SELECT id, name, configuration_json_str FROM
  collections` in `analyze_configuration_error`: the rows, or an exception. -/
  rowsOf : String → Except String (List (String × String × Option String))
  /-- the `json.loads` oracle. -/
  parse : String → Except String Json
  /-- `chromadb.PersistentClient(path=db_path)` in `analyze_chroma_database`. -/
  diagConnect : Except (String × String) Unit
  /-- `client.list_collections()` in `analyze_chroma_database`. -/
  diagList : Except (String × String) (List String)
  /-- outcome of configuration `i` of the loop in `test_database_migration`. -/
  diagMigConnect : Nat → Except (String × String) Nat

/-- The fixed approach list of `test_chromadb_connection_with_fixes`
(lines 165-171), with outcomes drawn from the environment. -/
def vaApproaches (env : Env) : List (String × Except (String × String) Nat) :=
  [("Standard PersistentClient", env.vaConnect 0),
   ("PersistentClient with settings", env.vaConnect 1)]

/-- The connection-test loop as events: one `connAttempt` per approach
tried, stopping at the first success. -/
def vaConnEvents (approaches : List (String × Except (String × String) Nat)) :
    List Event × Bool :=
  match approaches with
  | [] => ([], false)
  | (nm, Except.ok _) :: _ => ([Event.connAttempt nm], true)
  | (nm, Except.error _) :: rest =>
    let r := vaConnEvents rest
    (Event.connAttempt nm :: r.1, r.2)

/-- The storage-file search of `analyze_configuration_error`
(lines 37-42): first of `chroma.sqlite3`, `chroma.db` that exists under
`db_path`. -/
def vaFindSqlite (env : Env) (db_path : String) : Option String :=
  (["chroma.sqlite3", "chroma.db"].find?
    (fun c => env.pathExists (joinPath db_path c))).map (joinPath db_path)

/-- `analyze_configuration_error` as events plus result: `none` models both
the `return False` (no storage file) and the `return None` (caught
exception) paths, which are equally falsy to the caller. -/
def vaAnalyzeEvents (env : Env) (db_path : String) :
    List Event × Option (List Problem) :=
  match vaFindSqlite env db_path with
  | none => ([], none)
  | some p =>
    match env.rowsOf p with
    | Except.error _ => ([Event.storageInspect p], none)
    | Except.ok rows =>
      match analyzeRows env.parse rows with
      | Except.error _ => ([Event.storageInspect p, Event.classify rows.length], none)
      | Except.ok ps => ([Event.storageInspect p, Event.classify rows.length], some ps)

/-- `generate_migration_script` as events: nothing for an empty list, a
script write on success, an uncaught `TypeError` otherwise. -/
def vaGenerateEvents (db_path : String) (ps : List Problem) : List Event :=
  if ps.isEmpty then []
  else
    match scriptLinesE db_path ps with
    | Except.error e => [Event.uncaughtExc e]
    | Except.ok _ => [Event.scriptWrite (scriptPath db_path)]

/-- `main` of chroma_version_analysis.py (lines 187-221) as an event trace:
version check (prints only), path-existence check with early return, the
connection test, and — only when every approach failed — analysis and
script generation. -/
def va_main (env : Env) (db_path : String) : List Event :=
  if env.pathExists db_path then
    let conn := vaConnEvents (vaApproaches env)
    conn.1 ++
      (if conn.2 then []
       else
        let an := vaAnalyzeEvents env db_path
        an.1 ++
          (match an.2 with
           | some ps => if ps.isEmpty then [] else vaGenerateEvents db_path ps
           | none => []))
  else [Event.printPathError]

/-- The storage-file search of `analyze_chroma_database` (lines 38-50):
named candidates first, then any directory entry ending in `.sqlite3`. -/
def diagFindStorage (env : Env) (db_path : String) : Option String :=
  match (["chroma.sqlite3", "chroma.db", "database.db"].find?
      (fun c => env.pathExists (joinPath db_path c))).map (joinPath db_path) with
  | some p => some p
  | none =>
    ((env.listingOf db_path).find? (fun it => endsWithStr it.1 ".sqlite3")).map
      (fun it => joinPath db_path it.1)

/-- `analyze_chroma_database` (chroma_diagnostic.py lines 14-80) as events
plus its boolean result: early return on a missing path; otherwise a
directory listing, a storage-structure inspection when a storage file is
found, and one client-connection attempt whose failure (or a failure of
`list_collections`) yields `False`. -/
def diagAnalyzeEvents (env : Env) (db_path : String) : List Event × Bool :=
  if env.pathExists db_path then
    let storageEvts :=
      match diagFindStorage env db_path with
      | some p => [Event.storageInspect p]
      | none => []
    let ok :=
      match env.diagConnect with
      | Except.error _ => false
      | Except.ok _ =>
        match env.diagList with
        | Except.error _ => false
        | Except.ok _ => true
    (Event.listDir db_path :: storageEvts ++ [Event.connAttempt "PersistentClient"], ok)
  else ([Event.printPathError], false)

/-- The configuration loop of `test_database_migration` (lines 133-146):
attempts each configuration in order, stopping at the first success. -/
def diagMigLoop (env : Env) : List Nat → List Event
  | [] => []
  | i :: rest =>
    Event.connAttempt ("configuration " ++ toString (i + 1)) ::
      (match env.diagMigConnect i with
       | Except.ok _ => []
       | Except.error _ => diagMigLoop env rest)

/-- `test_database_migration` (chroma_diagnostic.py lines 120-151) as
events: when no backup exists it attempts `shutil.copytree(db_path,
backup_path)` — outside any `try`, so a missing `db_path` raises an
uncaught `FileNotFoundError` that ends the run — then tries the client
configurations. -/
def test_database_migration (env : Env) (db_path : String) : List Event :=
  let backup := db_path ++ "_backup"
  if env.pathExists backup then diagMigLoop env [0, 1]
  else if env.pathExists db_path then
    Event.backupCopyAttempt db_path backup :: Event.backupWritten backup ::
      diagMigLoop env [0, 1]
  else [Event.backupCopyAttempt db_path backup, Event.uncaughtExc "FileNotFoundError"]

/-- `main` of chroma_diagnostic.py (lines 153-178) as an event trace: runs
the analysis and, whenever it reports failure — including the
path-not-found case — goes on to `test_database_migration`. -/
def diag_main (env : Env) (db_path : String) : List Event :=
  let a := diagAnalyzeEvents env db_path
  if a.2 then a.1 else a.1 ++ test_database_migration env db_path

/-! ### Helper lemmas -/

/-- Two strings whose first characters differ are distinct. -/
theorem ne_of_heads (s t : String) (h : s.data.head? ≠ t.data.head?) : s ≠ t :=
  fun he => h (by rw [he])

/-- A non-empty string is not `isEmpty`. -/
theorem isEmpty_false_of_ne (s : String) (hs : s ≠ "") : s.isEmpty = false := by
  cases h : s.isEmpty
  · rfl
  · exfalso
    cases s with
    | mk data =>
      cases data with
      | nil => exact hs rfl
      | cons c cs =>
        simp [String.isEmpty, String.endPos, String.utf8ByteSize] at h
        have h2 := congrArg String.Pos.byteIdx h
        simp at h2
        have h3 := Char.utf8Size_pos c
        omega

/-! ### Claims -/

/-- C6: the correction step of the repair heuristic is idempotent: whenever
`fixConfig` (the `'_type' not in config` patch of
`generate_migration_script`, lines 119-120) succeeds on a configuration, it
maps its own output to itself, adding or changing nothing further. -/
theorem c6_fix_config_idempotent (c c2 : Json) (h : fixConfig c = Except.ok c2) :
    fixConfig c2 = Except.ok c2 := by
  cases c with
  | obj kvs =>
    by_cases hk : kvs.any (fun kv => kv.1 = "_type") = true
    · simp [fixConfig, jsonContainsKey, hk] at h
      subst h
      simp [fixConfig, jsonContainsKey, hk]
    · simp [fixConfig, jsonContainsKey, hk, setTypeKey, dictSet] at h
      subst h
      simp [fixConfig, jsonContainsKey, List.any_append]
  | arr xs =>
    by_cases hk : (xs.any (fun j => match j with
        | Json.str t => t = "_type"
        | _ => false)) = true
    · simp [fixConfig, jsonContainsKey, hk] at h
      subst h
      simp [fixConfig, jsonContainsKey, hk]
    · simp [fixConfig, jsonContainsKey, hk, setTypeKey] at h
  | str s =>
    by_cases hk : containsSubstr s "_type" = true
    · simp [fixConfig, jsonContainsKey, hk] at h
      subst h
      simp [fixConfig, jsonContainsKey, hk]
    · simp [fixConfig, jsonContainsKey, hk, setTypeKey] at h
  | null => simp [fixConfig, jsonContainsKey] at h
  | bool b => simp [fixConfig, jsonContainsKey] at h
  | num n => simp [fixConfig, jsonContainsKey] at h

/-- Witness for C6 at a concrete configuration. -/
theorem c6_witness :
    fixConfig (Json.obj [("_type", Json.str "CollectionConfigurationInternal")]) =
      Except.ok (Json.obj [("_type", Json.str "CollectionConfigurationInternal")]) :=
  c6_fix_config_idempotent (Json.obj []) _ rfl

/-- C9: with an empty problem list, `generate_migration_script` returns
after the `No configuration issues found` print without producing any
output pair, and the file system — in particular any pre-existing
`chroma_migration.sql` — is left exactly as it was. -/
theorem c9_no_problems_no_write (db_path : String) (fs : String → Option String) :
    generate_migration_script db_path [] = Except.ok none ∧
    applyGenerate fs db_path [] = fs :=
  ⟨rfl, rfl⟩

/-- C10: a record whose configuration blob is the empty string is handled
by the falsy branch exactly like NULL: the diagnostic printed is the
`No configuration JSON found` one (not the invalid-JSON one), the parser is
never consulted (the result does not depend on the parse oracle), the
record is queued as `(id, name, None)`, and the script emitter gives it the
fixed default configuration. -/
theorem c10_empty_blob_is_absent (parse parse2 : String → Except String Json)
    (collection_id name : String) :
    recordDiagnostic parse (some "") = "No configuration JSON found" ∧
    analyzeRecord parse collection_id name (some "") =
      analyzeRecord parse2 collection_id name (some "") ∧
    analyzeRecord parse collection_id name (some "") =
      Except.ok (some (collection_id, name, none)) ∧
    recLines (collection_id, name, none) =
      Except.ok ["-- Fix collection with default config: " ++ name,
                 "UPDATE collections ",
                 "SET configuration_json_str = '" ++ dumps default_config ++ "'",
                 "WHERE id = '" ++ collection_id ++ "';",
                 ""] :=
  ⟨rfl, rfl, rfl, rfl⟩

/-- C2: a record whose blob is NULL, or whose blob fails JSON parsing, is
queued as `(id, name, None)` whatever the blob's content was, and the
script emitter assigns it exactly the fixed default configuration
`{"_type": ..., "hnsw": {}, "embedding_function": {}}` with those three
keys and values. -/
theorem c2_default_for_malformed_or_absent (parse : String → Except String Json)
    (collection_id name : String) (blob : Option String)
    (h : blob = none ∨ ∃ s e, blob = some s ∧ s ≠ "" ∧ parse s = Except.error e) :
    analyzeRecord parse collection_id name blob =
      Except.ok (some (collection_id, name, none)) ∧
    recLines (collection_id, name, none) =
      Except.ok ["-- Fix collection with default config: " ++ name,
                 "UPDATE collections ",
                 "SET configuration_json_str = '" ++ dumps default_config ++ "'",
                 "WHERE id = '" ++ collection_id ++ "';",
                 ""] ∧
    default_config = Json.obj [("_type", Json.str "CollectionConfigurationInternal"),
                               ("hnsw", Json.obj []),
                               ("embedding_function", Json.obj [])] := by
  refine ⟨?_, rfl, rfl⟩
  obtain rfl | ⟨s, e, rfl, hs, hp⟩ := h
  · rfl
  · have hse : s.isEmpty = false := isEmpty_false_of_ne s hs
    simp [analyzeRecord, truthyStr, hse, hp]

/-- Witness for C2, covering both the NULL and the unparseable branch. -/
theorem c2_witness :
    (analyzeRecord (fun _ => Except.error "Expecting value") "i" "n" none =
      Except.ok (some ("i", "n", none))) ∧
    (analyzeRecord (fun _ => Except.error "Expecting value") "i" "n" (some "not json") =
      Except.ok (some ("i", "n", none))) :=
  ⟨(c2_default_for_malformed_or_absent _ "i" "n" none (Or.inl rfl)).1,
   (c2_default_for_malformed_or_absent _ "i" "n" (some "not json")
      (Or.inr ⟨"not json", "Expecting value", rfl, by decide, rfl⟩)).1⟩

/-- C1: a blob parsing to a mapping that has an `hnsw` block but no
`_type` key is corrected — by `analyze_configuration_error` (which patches
the queued object in place, lines 80-82) and then unchanged by
`generate_migration_script`'s `fixConfig` — to the original mapping with
exactly the pair `("_type", "CollectionConfigurationInternal")` appended;
every binding for any other key is preserved verbatim. -/
theorem c1_hnsw_missing_type_adds_discriminator (parse : String → Except String Json)
    (s collection_id name : String) (kvs : List (String × Json))
    (hs : s ≠ "")
    (hp : parse s = Except.ok (Json.obj kvs))
    (hnot : kvs.any (fun kv => kv.1 = "_type") = false)
    (hh : kvs.any (fun kv => kv.1 = "hnsw") = true) :
    analyzeRecord parse collection_id name (some s) =
      Except.ok (some (collection_id, name,
        some (Json.obj (kvs ++ [("_type", Json.str "CollectionConfigurationInternal")])))) ∧
    fixConfig (Json.obj (kvs ++ [("_type", Json.str "CollectionConfigurationInternal")])) =
      Except.ok (Json.obj (kvs ++ [("_type", Json.str "CollectionConfigurationInternal")])) ∧
    (∀ k, k ≠ "_type" →
      (kvs ++ [("_type", Json.str "CollectionConfigurationInternal")]).filter
          (fun kv => kv.1 = k) =
        kvs.filter (fun kv => kv.1 = k)) := by
  have hse : s.isEmpty = false := isEmpty_false_of_ne s hs
  refine ⟨?_, ?_, ?_⟩
  · simp [analyzeRecord, truthyStr, hse, hp, jsonContainsKey, hnot, hh,
          setTypeKey, dictSet]
  · simp [fixConfig, jsonContainsKey, List.any_append, hnot]
  · intro k hk
    simp [List.filter_append]
    intro hcontra
    exact absurd hcontra.symm hk

/-- Witness for C1 at a concrete mapping with an `hnsw` block. -/
theorem c1_witness :
    analyzeRecord (fun _ => Except.ok (Json.obj [("hnsw", Json.obj [("M", Json.num 16)])]))
        "c1" "docs" (some "\x7b\"hnsw\": \x7b\"M\": 16\x7d\x7d") =
      Except.ok (some ("c1", "docs",
        some (Json.obj [("hnsw", Json.obj [("M", Json.num 16)]),
                        ("_type", Json.str "CollectionConfigurationInternal")]))) :=
  (c1_hnsw_missing_type_adds_discriminator _ _ "c1" "docs"
    [("hnsw", Json.obj [("M", Json.num 16)])]
    (by decide) rfl (by decide) (by decide)).1

/-- C3 counterexample: for the single row `(id 'abc', name 'docs', NULL
configuration)` the generated script does NOT contain the claim's exact
one-line statement with the compact JSON literal (no whitespace after `:`
or `,`): `json.dumps` uses the default separators `", "` and `": "`, and
the statement is spread over three lines. -/
theorem c3_counterexample :
    (generate_migration_script "/data/chroma" [("abc", "docs", none)]).map
      (fun out => out.map (fun pc => containsSubstr pc.2
        "UPDATE collections SET configuration_json_str = '\x7b\"_type\":\"CollectionConfigurationInternal\",\"hnsw\":\x7b\x7d,\"embedding_function\":\x7b\x7d\x7d' WHERE id = 'abc';")) =
    Except.ok (some false) := by
  rfl

/-- C3 amended: for that row the script written to
`/data/chroma_migration.sql` is exactly the text below; the UPDATE
statement spans three lines (`UPDATE collections ` with a trailing space,
`SET ...`, `WHERE ...`) and the serialized default configuration carries a
space after every `:` and `,` (Python `json.dumps` default separators). -/
theorem c3_update_statement_exact :
    generate_migration_script "/data/chroma" [("abc", "docs", none)] =
      Except.ok (some ("/data/chroma_migration.sql",
        "-- ChromaDB Configuration Migration Script\n-- Generated for database: /data/chroma\n-- Fixes missing '_type' fields in collection configurations\n\nBEGIN TRANSACTION;\n\n-- Fix collection with default config: docs\nUPDATE collections \nSET configuration_json_str = '\x7b\"_type\": \"CollectionConfigurationInternal\", \"hnsw\": \x7b\x7d, \"embedding_function\": \x7b\x7d\x7d'\nWHERE id = 'abc';\n\n\nCOMMIT;\n\n-- Verify the changes\nSELECT id, name, configuration_json_str FROM collections;\n")) ∧
    (generate_migration_script "/data/chroma" [("abc", "docs", none)]).map
      (fun out => out.map (fun pc => containsSubstr pc.2
        "UPDATE collections \nSET configuration_json_str = '\x7b\"_type\": \"CollectionConfigurationInternal\", \"hnsw\": \x7b\x7d, \"embedding_function\": \x7b\x7d\x7d'\nWHERE id = 'abc';")) =
    Except.ok (some true) := by
  constructor
  · decide
  · rfl

/-- C5: the code's naive f-string interpolation does not escape single
quotes. At a record whose configuration contains the string value `it's`,
the emitted `SET` line embeds the serialized JSON verbatim between single
quotes, and an SQL reader of that literal stops at the apostrophe: the
value read back is the truncated `{"hnsw": {}, "note": "it` rather than the
intended serialized JSON — the claim's escaping requirement is violated. -/
theorem c5_quote_injection :
    fixConfig (Json.obj [("hnsw", Json.obj []), ("note", Json.str "it's")]) =
      Except.ok (Json.obj [("hnsw", Json.obj []), ("note", Json.str "it's"),
        ("_type", Json.str "CollectionConfigurationInternal")]) ∧
    recLines ("id1", "col", some (Json.obj [("hnsw", Json.obj []), ("note", Json.str "it's")])) =
      Except.ok ["-- Fix collection: col",
                 "UPDATE collections ",
                 "SET configuration_json_str = '\x7b\"hnsw\": \x7b\x7d, \"note\": \"it's\", \"_type\": \"CollectionConfigurationInternal\"\x7d'",
                 "WHERE id = 'id1';",
                 ""] ∧
    sqlFirstLit ("\x7b\"hnsw\": \x7b\x7d, \"note\": \"it's\", \"_type\": \"CollectionConfigurationInternal\"\x7d" ++ "'") =
      some "\x7b\"hnsw\": \x7b\x7d, \"note\": \"it" ∧
    sqlFirstLit ("\x7b\"hnsw\": \x7b\x7d, \"note\": \"it's\", \"_type\": \"CollectionConfigurationInternal\"\x7d" ++ "'") ≠
      some "\x7b\"hnsw\": \x7b\x7d, \"note\": \"it's\", \"_type\": \"CollectionConfigurationInternal\"\x7d" := by
  refine ⟨rfl, rfl, rfl, ?_⟩
  decide

/-- Every approach of the connection-test loop failing yields `False`
together with one `(label, kind, message)` report per approach, in order. -/
theorem testConn_all_fail (pre : List (String × String × String)) :
    test_chromadb_connection_with_fixes
      (pre.map (fun p => (p.1, (Except.error (p.2.1, p.2.2) : Except (String × String) Nat)))) =
    (false, pre) := by
  induction pre with
  | nil => rfl
  | cons p rest ih => simp [test_chromadb_connection_with_fixes, ih]

/-- The connection-test loop returns `True` at the first successful
approach, after reporting exactly the earlier failures. -/
theorem testConn_first_success (pre : List (String × String × String))
    (nm : String) (n : Nat) (rest : List (String × Except (String × String) Nat)) :
    test_chromadb_connection_with_fixes
      ((pre.map (fun p => (p.1, (Except.error (p.2.1, p.2.2) : Except (String × String) Nat)))) ++
        (nm, Except.ok n) :: rest) =
    (true, pre) := by
  induction pre with
  | nil => rfl
  | cons p rest2 ih => simp [test_chromadb_connection_with_fixes, ih]

/-- The configuration loop of `test_database_migration`
(chroma_diagnostic.py lines 138-146) at the report level, abstracted over
the outcome of each configuration's inner `try` block (`.ok n` = client
opened and `list_collections` returned `n` collections; `.error (kind,
msg)` = some step raised, caught by the inner `except`). It `return True`s
at the first success; each attempted failure prints `✗ Failed: {e}` —
`str(e)`, the exception message alone, with no `type(e).__name__` — so a
failure report here is just the message string. -/
def migrationLoopReports : List (Except (String × String) Nat) → Bool × List String
  | [] => (false, [])
  | Except.ok _ :: _ => (true, [])
  | Except.error e :: rest =>
    let r := migrationLoopReports rest
    (r.1, e.2 :: r.2)

/-- Every configuration of the migration loop failing yields `False` with
one message-only report per configuration, in order. -/
theorem migLoop_all_fail (pre : List (String × String)) :
    migrationLoopReports
      (pre.map (fun e => (Except.error e : Except (String × String) Nat))) =
    (false, pre.map (fun e => e.2)) := by
  induction pre with
  | nil => rfl
  | cons p rest ih => simp [migrationLoopReports, ih]

/-- The migration loop returns `True` at the first successful
configuration, after reporting only the messages of the earlier
failures. -/
theorem migLoop_first_success (pre : List (String × String)) (n : Nat)
    (rest : List (Except (String × String) Nat)) :
    migrationLoopReports
      ((pre.map (fun e => (Except.error e : Except (String × String) Nat))) ++
        Except.ok n :: rest) =
    (true, pre.map (fun e => e.2)) := by
  induction pre with
  | nil => rfl
  | cons p rest2 ih => simp [migrationLoopReports, ih]

/-- C7 counterexample: in the diagnostic entry point's migration loop — one
of the claim's two cited connectivity testers — a configuration that fails
with exception kind `ValueError` and message `no db` is reported by the
message alone: the loop's output is `(false, ["no db"])` and the exception
kind occurs nowhere in the report, so the tester does not report the
exception kind and message for every failed variant as claimed. -/
theorem c7_counterexample :
    migrationLoopReports [Except.error ("ValueError", "no db")] = (false, ["no db"]) ∧
    containsSubstr "no db" "ValueError" = false ∧
    ("no db" : String) ≠ "ValueError: no db" := by
  refine ⟨rfl, by decide, by decide⟩

/-- C7 (amended): both connection-test loops return success at the first
variant whose client open + `list_collections` succeeded, with a result
independent of whatever outcomes follow that variant, and return failure
exactly when every variant fails. They differ in failure reporting:
`test_chromadb_connection_with_fixes` reports `(label, exception kind,
exception message)` for every attempted failing variant, in order, while
the migration loop of `test_database_migration` reports only each
attempted failing variant's exception message, without the kind. -/
theorem c7_testers_reporting (pre : List (String × String × String))
    (nm : String) (n : Nat) (rest rest2 : List (String × Except (String × String) Nat))
    (preD : List (String × String)) (nD : Nat)
    (restD restD2 : List (Except (String × String) Nat)) :
    test_chromadb_connection_with_fixes
        ((pre.map (fun p => (p.1, (Except.error (p.2.1, p.2.2) : Except (String × String) Nat)))) ++
          (nm, Except.ok n) :: rest) = (true, pre) ∧
    test_chromadb_connection_with_fixes
        ((pre.map (fun p => (p.1, (Except.error (p.2.1, p.2.2) : Except (String × String) Nat)))) ++
          (nm, Except.ok n) :: rest) =
      test_chromadb_connection_with_fixes
        ((pre.map (fun p => (p.1, (Except.error (p.2.1, p.2.2) : Except (String × String) Nat)))) ++
          (nm, Except.ok n) :: rest2) ∧
    test_chromadb_connection_with_fixes
        (pre.map (fun p => (p.1, (Except.error (p.2.1, p.2.2) : Except (String × String) Nat)))) =
      (false, pre) ∧
    (∀ vs : List (String × Except (String × String) Nat),
      (test_chromadb_connection_with_fixes vs).1 = false ↔
        ∀ x ∈ vs, ∀ m : Nat, x.2 ≠ Except.ok m) ∧
    migrationLoopReports
        ((preD.map (fun e => (Except.error e : Except (String × String) Nat))) ++
          Except.ok nD :: restD) = (true, preD.map (fun e => e.2)) ∧
    migrationLoopReports
        ((preD.map (fun e => (Except.error e : Except (String × String) Nat))) ++
          Except.ok nD :: restD) =
      migrationLoopReports
        ((preD.map (fun e => (Except.error e : Except (String × String) Nat))) ++
          Except.ok nD :: restD2) ∧
    migrationLoopReports
        (preD.map (fun e => (Except.error e : Except (String × String) Nat))) =
      (false, preD.map (fun e => e.2)) ∧
    (∀ vs : List (Except (String × String) Nat),
      (migrationLoopReports vs).1 = false ↔
        ∀ x ∈ vs, ∀ m : Nat, x ≠ Except.ok m) := by
  refine ⟨testConn_first_success pre nm n rest, ?_, testConn_all_fail pre, ?_,
          migLoop_first_success preD nD restD, ?_, migLoop_all_fail preD, ?_⟩
  · rw [testConn_first_success pre nm n rest, testConn_first_success pre nm n rest2]
  · intro vs
    induction vs with
    | nil => simp [test_chromadb_connection_with_fixes]
    | cons v rest3 ih =>
      obtain ⟨vn, vo⟩ := v
      cases vo with
      | ok m => simp [test_chromadb_connection_with_fixes]
      | error e => simp [test_chromadb_connection_with_fixes, ih]
  · rw [migLoop_first_success preD nD restD, migLoop_first_success preD nD restD2]
  · intro vs
    induction vs with
    | nil => simp [migrationLoopReports]
    | cons v rest3 ih =>
      cases v with
      | ok m => simp [migrationLoopReports]
      | error e => simp [migrationLoopReports, ih]

/-- A concrete environment in which no path exists and every external call
fails: the world an entirely missing database directory presents. -/
def env0 : Env where
  pathExists := fun _ => false
  listingOf := fun _ => []
  vaConnect := fun _ => Except.error ("ValueError", "no db")
  rowsOf := fun _ => Except.error "unable to open database file"
  parse := fun _ => Except.error "Expecting value"
  diagConnect := Except.error ("ValueError", "no db")
  diagList := Except.error ("ValueError", "no db")
  diagMigConnect := fun _ => Except.error ("ValueError", "no db")

/-- C8 counterexample: on the nonexistent path `/missing` the diagnostic
entry point does not stop at the printed path error: its run continues into
`test_database_migration`, attempts the backup copy of the missing
directory, and dies of an uncaught `FileNotFoundError` — contradicting the
claimed early return with no backup writing for every entry point. -/
theorem c8_counterexample :
    Event.backupCopyAttempt "/missing" "/missing_backup" ∈ diag_main env0 "/missing" ∧
    diag_main env0 "/missing" ≠ [Event.printPathError] := by
  constructor
  · decide
  · decide

/-- C8 amended: on a nonexistent input path, the version-analysis entry
point prints the error and returns early, with no storage inspection,
connection attempt, classification, script write or backup copy; the
diagnostic entry point prints the same error and its analysis phase
performs none of those actions either, but the run then proceeds to the
migration test, whose backup `copytree` attempt raises an uncaught
`FileNotFoundError` (assuming the sibling backup path is also absent),
ending the run without any script write or connection attempt. -/
theorem c8_missing_path_behaviour (env : Env) (db_path : String)
    (h : env.pathExists db_path = false) :
    va_main env db_path = [Event.printPathError] ∧
    (env.pathExists (db_path ++ "_backup") = false →
      diag_main env db_path =
        [Event.printPathError,
         Event.backupCopyAttempt db_path (db_path ++ "_backup"),
         Event.uncaughtExc "FileNotFoundError"]) := by
  constructor
  · simp [va_main, h]
  · intro h2
    simp [diag_main, diagAnalyzeEvents, test_database_migration, h, h2]

/-- Witness for C8 (amended) at the concrete environment `env0`. -/
theorem c8_witness :
    va_main env0 "/missing" = [Event.printPathError] ∧
    diag_main env0 "/missing" =
      [Event.printPathError,
       Event.backupCopyAttempt "/missing" "/missing_backup",
       Event.uncaughtExc "FileNotFoundError"] :=
  ⟨(c8_missing_path_behaviour env0 "/missing" rfl).1,
   (c8_missing_path_behaviour env0 "/missing" rfl).2 rfl⟩

/-- Strings with equal character data are equal. -/
theorem str_ext (s t : String) (h : s.data = t.data) : s = t := by
  cases s
  cases t
  exact congrArg String.mk h

/-- A string starting with a non-empty string `a` differs from any string
whose first character differs from `a`'s. -/
theorem head_append_ne (a x t : String) (h : a.data.head? ≠ t.data.head?)
    (ha : a.data ≠ []) : (a ++ x) ≠ t := by
  apply ne_of_heads
  have h2 : (a ++ x).data.head? = a.data.head? := by
    rw [String.data_append]
    cases hd : a.data with
    | nil => exact absurd hd ha
    | cons c cs => simp
  rw [h2]
  exact h

/-- Variant of `head_append_ne` for the shape `(a ++ x) ++ y`. -/
theorem head_append_ne2 (a x y t : String) (h : a.data.head? ≠ t.data.head?)
    (ha : a.data ≠ []) : ((a ++ x) ++ y) ≠ t := by
  have hassoc : (a ++ x) ++ y = a ++ (x ++ y) :=
    str_ext _ _ (by simp [String.data_append])
  rw [hassoc]
  exact head_append_ne a (x ++ y) t h ha

/-- Each per-record block contributes exactly one `UPDATE collections `
line, contains the record's `WHERE id = '<id>';` line, and contains no
transaction delimiters, whatever the record's name, identifier and
serialized configuration are. -/
theorem recLines_counts (r : Problem) (ls : List String)
    (h : recLines r = Except.ok ls) :
    ls.count "UPDATE collections " = 1 ∧
    ("WHERE id = '" ++ r.1 ++ "';") ∈ ls ∧
    ls.count "BEGIN TRANSACTION;" = 0 ∧
    ls.count "COMMIT;" = 0 := by
  obtain ⟨cid, nm, cfg⟩ := r
  have hA1 := head_append_ne "-- Fix collection: " nm "UPDATE collections " (by decide) (by decide)
  have hA2 := head_append_ne "-- Fix collection with default config: " nm "UPDATE collections " (by decide) (by decide)
  have hA4 := head_append_ne "-- Fix collection: " nm "BEGIN TRANSACTION;" (by decide) (by decide)
  have hA5 := head_append_ne "-- Fix collection with default config: " nm "BEGIN TRANSACTION;" (by decide) (by decide)
  have hA7 := head_append_ne "-- Fix collection: " nm "COMMIT;" (by decide) (by decide)
  have hA8 := head_append_ne "-- Fix collection with default config: " nm "COMMIT;" (by decide) (by decide)
  have hC3 := head_append_ne2 "WHERE id = '" cid "';" "UPDATE collections " (by decide) (by decide)
  have hC4 := head_append_ne2 "WHERE id = '" cid "';" "BEGIN TRANSACTION;" (by decide) (by decide)
  have hC5 := head_append_ne2 "WHERE id = '" cid "';" "COMMIT;" (by decide) (by decide)
  cases cfg with
  | none =>
    simp only [recLines] at h
    have hB1 := head_append_ne2 "SET configuration_json_str = '" (dumps default_config) "'" "UPDATE collections " (by decide) (by decide)
    have hB2 := head_append_ne2 "SET configuration_json_str = '" (dumps default_config) "'" "BEGIN TRANSACTION;" (by decide) (by decide)
    have hB3 := head_append_ne2 "SET configuration_json_str = '" (dumps default_config) "'" "COMMIT;" (by decide) (by decide)
    simp at h
    subst h
    refine ⟨?_, ?_, ?_, ?_⟩
    · simp [List.count_cons, hA2, hB1, hC3]
    · simp
    · simp [List.count_cons, hA5, hB2, hC4]
    · simp [List.count_cons, hA8, hB3, hC5]
  | some c =>
    cases hfc : fixConfig c with
    | error e => simp [recLines, hfc] at h
    | ok c2 =>
      simp [recLines, hfc] at h
      subst h
      have hB1 := head_append_ne2 "SET configuration_json_str = '" (dumps c2) "'" "UPDATE collections " (by decide) (by decide)
      have hB2 := head_append_ne2 "SET configuration_json_str = '" (dumps c2) "'" "BEGIN TRANSACTION;" (by decide) (by decide)
      have hB3 := head_append_ne2 "SET configuration_json_str = '" (dumps c2) "'" "COMMIT;" (by decide) (by decide)
      refine ⟨?_, ?_, ?_, ?_⟩
      · simp [List.count_cons, hA1, hB1, hC3]
      · simp
      · simp [List.count_cons, hA4, hB2, hC4]
      · simp [List.count_cons, hA7, hB3, hC5]

/-- Accumulated over the whole loop: one `UPDATE collections ` line per
record, each record's `WHERE` line present, and no transaction delimiters
inside the blocks. -/
theorem recBlocks_counts (configs : List Problem) (bs : List (List String))
    (h : recBlocks configs = Except.ok bs) :
    bs.flatten.count "UPDATE collections " = configs.length ∧
    (∀ r ∈ configs, ("WHERE id = '" ++ r.1 ++ "';") ∈ bs.flatten) ∧
    bs.flatten.count "BEGIN TRANSACTION;" = 0 ∧
    bs.flatten.count "COMMIT;" = 0 := by
  induction configs generalizing bs with
  | nil =>
    simp [recBlocks] at h
    subst h
    simp
  | cons r rest ih =>
    cases hb : recLines r with
    | error e => simp [recBlocks, hb] at h
    | ok b =>
      cases hrest : recBlocks rest with
      | error e => simp [recBlocks, hb, hrest] at h
      | ok bs2 =>
        simp [recBlocks, hb, hrest] at h
        subst h
        obtain ⟨u1, u2, u3, u4⟩ := recLines_counts r b hb
        obtain ⟨v1, v2, v3, v4⟩ := ih bs2 hrest
        refine ⟨?_, ?_, ?_, ?_⟩
        · simp [List.count_append, u1, v1, Nat.add_comm]
        · intro q hq
          simp only [List.flatten_cons, List.mem_append]
          cases hq with
          | head => exact Or.inl u2
          | tail _ hq2 => exact Or.inr (v2 q hq2)
        · simp [List.count_append, u3, v3]
        · simp [List.count_append, u4, v4]

/-- The header block holds the single `BEGIN TRANSACTION;` and no other
counted statement, for every database path. -/
theorem headerLines_counts (db : String) :
    (headerLines db).count "UPDATE collections " = 0 ∧
    (headerLines db).count "BEGIN TRANSACTION;" = 1 ∧
    (headerLines db).count "COMMIT;" = 0 := by
  have h1 := head_append_ne "-- Generated for database: " db "UPDATE collections " (by decide) (by decide)
  have h2 := head_append_ne "-- Generated for database: " db "BEGIN TRANSACTION;" (by decide) (by decide)
  have h3 := head_append_ne "-- Generated for database: " db "COMMIT;" (by decide) (by decide)
  refine ⟨?_, ?_, ?_⟩ <;> simp [headerLines, List.count_cons, h1, h2, h3]

/-- C4: for every non-empty problem list whose blocks build without a
`TypeError`, `generate_migration_script` writes to the fixed script path
the newline-join of lines that contain exactly one `UPDATE collections `
line per corrected record, each record's `WHERE id = '<id>';` clause,
exactly one `BEGIN TRANSACTION;` and exactly one `COMMIT;`, and that end
with the footer whose last line is the verification `SELECT` over the
`collections` table. -/
theorem c4_script_structure (db_path : String) (configs : List Problem)
    (ls : List String) (hne : configs ≠ [])
    (h : scriptLinesE db_path configs = Except.ok ls) :
    generate_migration_script db_path configs =
      Except.ok (some (scriptPath db_path, joinLines ls)) ∧
    ls.count "UPDATE collections " = configs.length ∧
    (∀ r ∈ configs, ("WHERE id = '" ++ r.1 ++ "';") ∈ ls) ∧
    ls.count "BEGIN TRANSACTION;" = 1 ∧
    ls.count "COMMIT;" = 1 ∧
    footerLines <:+ ls := by
  have hempty : configs.isEmpty = false := by
    cases configs with
    | nil => exact absurd rfl hne
    | cons a l => rfl
  have f1 : footerLines.count "UPDATE collections " = 0 := by decide
  have f2 : footerLines.count "BEGIN TRANSACTION;" = 0 := by decide
  have f3 : footerLines.count "COMMIT;" = 1 := by decide
  cases hb : recBlocks configs with
  | error e => simp [scriptLinesE, hb] at h
  | ok bs =>
    simp [scriptLinesE, hb] at h
    subst h
    obtain ⟨v1, v2, v3, v4⟩ := recBlocks_counts configs bs hb
    obtain ⟨w1, w2, w3⟩ := headerLines_counts db_path
    refine ⟨?_, ?_, ?_, ?_, ?_, ?_⟩
    · simp [generate_migration_script, hempty, scriptLinesE, hb]
    · simp [List.count_append, v1, w1, f1]
    · intro r hr
      have hm := v2 r hr
      simp only [List.mem_append]
      exact Or.inr (Or.inl hm)
    · simp [List.count_append, v3, w2, f2]
    · simp [List.count_append, v4, w3, f3]
    · exact ⟨headerLines db_path ++ bs.flatten, by simp⟩

/-- Witness for C4 at a one-record problem list. -/
theorem c4_witness :
    ([(("abc", "docs", none) : Problem)] ≠ []) ∧
    generate_migration_script "/data/chroma" [("abc", "docs", none)] =
      Except.ok (some (scriptPath "/data/chroma",
        joinLines
          ["-- ChromaDB Configuration Migration Script",
           "-- Generated for database: /data/chroma",
           "-- Fixes missing '_type' fields in collection configurations",
           "",
           "BEGIN TRANSACTION;",
           "",
           "-- Fix collection with default config: docs",
           "UPDATE collections ",
           "SET configuration_json_str = '\x7b\"_type\": \"CollectionConfigurationInternal\", \"hnsw\": \x7b\x7d, \"embedding_function\": \x7b\x7d\x7d'",
           "WHERE id = 'abc';",
           "",
           "",
           "COMMIT;",
           "",
           "-- Verify the changes",
           "SELECT id, name, configuration_json_str FROM collections;"])) ∧
    (["-- ChromaDB Configuration Migration Script",
      "-- Generated for database: /data/chroma",
      "-- Fixes missing '_type' fields in collection configurations",
      "",
      "BEGIN TRANSACTION;",
      "",
      "-- Fix collection with default config: docs",
      "UPDATE collections ",
      "SET configuration_json_str = '\x7b\"_type\": \"CollectionConfigurationInternal\", \"hnsw\": \x7b\x7d, \"embedding_function\": \x7b\x7d\x7d'",
      "WHERE id = 'abc';",
      "",
      "",
      "COMMIT;",
      "",
      "-- Verify the changes",
      "SELECT id, name, configuration_json_str FROM collections;"] : List String).count
        "UPDATE collections " = 1 := by
  have happ := c4_script_structure "/data/chroma" [("abc", "docs", none)]
    ["-- ChromaDB Configuration Migration Script",
     "-- Generated for database: /data/chroma",
     "-- Fixes missing '_type' fields in collection configurations",
     "",
     "BEGIN TRANSACTION;",
     "",
     "-- Fix collection with default config: docs",
     "UPDATE collections ",
     "SET configuration_json_str = '\x7b\"_type\": \"CollectionConfigurationInternal\", \"hnsw\": \x7b\x7d, \"embedding_function\": \x7b\x7d\x7d'",
     "WHERE id = 'abc';",
     "",
     "",
     "COMMIT;",
     "",
     "-- Verify the changes",
     "SELECT id, name, configuration_json_str FROM collections;"]
    (by simp) rfl
  exact ⟨by simp, happ.1, happ.2.1⟩

end ChromaAnalysis
